import Mathlib

/-!
Verification of the scroll-triggered animation subsystem of the SohoMarketing
repository (`src/components/animations/useGSAP.ts`, type definitions in
`src/types`).  The hooks are shallowly embedded as explicit state machines:
each React hook instance becomes a state record, its effect body / event
callbacks become step functions, and a run is a left fold of events over the
initial state.

Modelling conventions, stated once here:
* Numbers are rationals (`ℚ`); the JS literals 0.8, 0.3, 0.9, 1.05, 0.1
  become 4/5, 3/10, 9/10, 21/20, 1/10.
* A JS object spread `{ ...a, ...b }` over typed option-field records is
  field-wise right-biased choice (`b`'s field when present, else `a`'s).
* React compares effect dependencies with `Object.is`.  In
  `useScrollAnimation` the dependency `mergedConfig` is a freshly allocated
  object on every render, so the comparison always fails and every re-render
  of the host component re-runs the effect (cleanup, then body); such
  re-renders — e.g. the one caused by `setIsVisible` inside the observer
  callback — are the `rerender` event.  The re-render caused by the
  completion callback's `setHasAnimated true` is folded into the completion
  step.
* GSAP tweens are records carrying their target properties and timing; the
  interpolated intermediate frames are not modelled.  A tween's completion
  applies its target properties to the element's inline visual state.
-/

/-- Transform properties of `GSAPAnimationConfig.transform` in `src/types`
(fields `x`, `y`, `scale`, `rotation`, `opacity`, all optional). The same
record shape serves as the property object passed to `gsap.set` / `gsap.to`. -/
structure TransformProps where
  x : Option ℚ := none
  y : Option ℚ := none
  scale : Option ℚ := none
  rotation : Option ℚ := none
  opacity : Option ℚ := none
deriving DecidableEq, Repr

/-- Animation configuration `GSAPAnimationConfig` from `src/types` (the
`trigger` and `debug` fields play no role in the modelled hooks and are
omitted; `ease` is an opaque string). -/
structure GSAPAnimationConfig where
  duration : Option ℚ := none
  delay : Option ℚ := none
  ease : Option String := none
  transform : Option TransformProps := none
deriving DecidableEq, Repr

/-- The default configuration `DEFAULT_ANIMATION_CONFIG` from `src/types`:
duration 0.8, delay 0, ease "power2.out", transform with opacity 1. -/
def DEFAULT_ANIMATION_CONFIG : GSAPAnimationConfig :=
  { duration := some (4/5)
    delay := some 0
    ease := some "power2.out"
    transform := some { opacity := some 1 } }

/-- Right-biased choice on option fields, the meaning of one field of a JS
object spread. -/
def optOr (base ov : Option α) : Option α :=
  match ov with
  | some v => some v
  | none => base

/-- The merge `mergedConfig = { ...DEFAULT_ANIMATION_CONFIG, ...config }`
performed at the top of every hook.  Note the `transform` object is replaced
wholesale when the caller supplies one, not deep-merged. -/
def mergeConfig (config : GSAPAnimationConfig) : GSAPAnimationConfig :=
  { duration := optOr DEFAULT_ANIMATION_CONFIG.duration config.duration
    delay := optOr DEFAULT_ANIMATION_CONFIG.delay config.delay
    ease := optOr DEFAULT_ANIMATION_CONFIG.ease config.ease
    transform := optOr DEFAULT_ANIMATION_CONFIG.transform config.transform }

/-- Spread of one transform-property object over another:
`{ ...base, ...ov }`. -/
def overrideProps (base ov : TransformProps) : TransformProps :=
  { x := optOr base.x ov.x
    y := optOr base.y ov.y
    scale := optOr base.scale ov.scale
    rotation := optOr base.rotation ov.rotation
    opacity := optOr base.opacity ov.opacity }

/-- Inline visual state of a DOM element as driven by GSAP.  A fresh element
has the neutral values x 0, y 0, scale 1, rotation 0, opacity 1. -/
structure Visual where
  x : ℚ := 0
  y : ℚ := 0
  scale : ℚ := 1
  rotation : ℚ := 0
  opacity : ℚ := 1
deriving DecidableEq, Repr

/-- Effect of `gsap.set element props` on the element's inline visual state:
every property present in `props` is written, the rest keep their value. -/
def applyProps (v : Visual) (p : TransformProps) : Visual :=
  { x := p.x.getD v.x
    y := p.y.getD v.y
    scale := p.scale.getD v.scale
    rotation := p.rotation.getD v.rotation
    opacity := p.opacity.getD v.opacity }

/-- A GSAP tween as created by `gsap.to`: target properties plus timing.
The interpolation itself is not modelled; completing the tween applies
`target` to the element. -/
structure GTween where
  target : TransformProps
  duration : Option ℚ := none
  ease : Option String := none
  delay : Option ℚ := none
deriving DecidableEq, Repr

/-! ## useScrollAnimation (useGSAP.ts lines 527-620)

State machine of one `useScrollAnimation` hook instance.  The effect body
sets the hidden initial pose `gsap.set element (opacity 0, y 50, scale 0.9,
...transform)`, creates an `IntersectionObserver` and observes the element.
The observer callback, on a qualifying entry (`isIntersecting` and the
closure's `hasAnimated` is false), sets `isVisible`, creates the entrance
tween toward `(opacity 1, y 0, scale 1, ...transform)` with the merged
duration / ease / delay, and unobserves the element.  The effect's
dependency array is `(mergedConfig, hasAnimated, enableLogging)`; since
`mergedConfig` is freshly allocated on every render, any re-render of the
host component re-runs the effect (cleanup, then body) — in particular the
one caused by `setIsVisible`, and the one caused by the tween's
`onComplete` setting `hasAnimated`. -/

/-- Initial hidden pose of `useScrollAnimation`: the property object
`(opacity 0, y 50, scale 0.9)` spread with the merged config's transform. -/
def scrollHidden (config : GSAPAnimationConfig) : TransformProps :=
  overrideProps
    { y := some 50, scale := some (9/10), opacity := some 0 }
    ((mergeConfig config).transform.getD {})

/-- Entrance-tween target of `useScrollAnimation`: the property object
`(opacity 1, y 0, scale 1)` spread with the merged config's transform. -/
def scrollTarget (config : GSAPAnimationConfig) : TransformProps :=
  overrideProps
    { y := some 0, scale := some 1, opacity := some 1 }
    ((mergeConfig config).transform.getD {})

/-- The entrance tween `gsap.to element scrollAnimationProps` created by the
observer callback, carrying the merged duration, ease and delay (each copied
only when defined, which for option fields is the identity). -/
def mkScrollTween (config : GSAPAnimationConfig) : GTween :=
  { target := scrollTarget config
    duration := (mergeConfig config).duration
    ease := (mergeConfig config).ease
    delay := (mergeConfig config).delay }

/-- State of one `useScrollAnimation` hook instance.  `observing` is whether
the intersection observer currently watches the element; `tween` is
`animationRef.current`; `cbHasAnimated` is the value of `hasAnimated`
captured by the observer callback's closure at the last effect run. -/
structure ScrollState where
  attached : Bool := false
  isVisible : Bool := false
  hasAnimated : Bool := false
  observing : Bool := false
  tween : Option GTween := none
  visual : Visual := {}
  cbHasAnimated : Bool := false
deriving DecidableEq, Repr

/-- Events delivered to one `useScrollAnimation` instance: the mount-time
effect run (with whether the element ref is attached), an intersection
callback invocation, a re-render of the host component (any cause — the
`setIsVisible` update inside the observer callback, or the parent
re-rendering; since `mergedConfig` is freshly allocated each render, the
`Object.is` dependency comparison fails and the effect re-runs), completion
of the entrance tween, and unmount. -/
inductive ScrollEvent where
  | mount (attached : Bool)
  | intersect (isIntersecting : Bool)
  | rerender
  | complete
  | unmount
deriving DecidableEq, Repr

/-- Cleanup function of the `useScrollAnimation` effect: disconnect the
observer and kill the current tween. -/
def scrollCleanup (s : ScrollState) : ScrollState :=
  { s with observing := false, tween := none }

/-- Body of the `useScrollAnimation` effect (element attached): set the
hidden initial pose, create the observer and start observing.  The observer
callback closes over the current value of `hasAnimated`. -/
def scrollEffectBody (config : GSAPAnimationConfig) (s : ScrollState) : ScrollState :=
  { s with
    visual := applyProps s.visual (scrollHidden config)
    observing := true
    cbHasAnimated := s.hasAnimated }

/-- One step of the `useScrollAnimation` state machine.  A re-render always
re-runs the effect (the freshly allocated `mergedConfig` dependency never
compares equal): cleanup, then — if the element is attached — the body
again.  The completion step folds in the effect re-run caused by its own
`setHasAnimated true`. -/
def scrollStep (config : GSAPAnimationConfig) (s : ScrollState) :
    ScrollEvent → ScrollState
  | .mount a =>
      if a then scrollEffectBody config { s with attached := true }
      else { s with attached := false }
  | .intersect b =>
      if s.observing && b && !s.cbHasAnimated then
        { s with
          isVisible := true
          tween := some (mkScrollTween config)
          observing := false }
      else s
  | .rerender =>
      if s.attached then scrollEffectBody config (scrollCleanup s)
      else scrollCleanup s
  | .complete =>
      match s.tween with
      | none => s
      | some t =>
          let s1 : ScrollState :=
            { s with
              visual := applyProps s.visual t.target
              hasAnimated := true
              tween := none }
          if s.hasAnimated then s1
          else if s.attached then scrollEffectBody config (scrollCleanup s1)
          else scrollCleanup s1
  | .unmount => scrollCleanup s

/-- Run of one `useScrollAnimation` instance over a list of events from the
initial state. -/
def scrollRun (config : GSAPAnimationConfig) (es : List ScrollEvent) : ScrollState :=
  es.foldl (scrollStep config) {}

example :
    (scrollRun {} [.mount true, .intersect true, .complete]).visual =
      { x := 0, y := 50, scale := 9/10, rotation := 0, opacity := 1 } := rfl

example : (scrollRun {} [.mount true, .intersect true, .complete]).hasAnimated = true := by
  decide

example :
    (scrollRun {} [.mount true]).visual =
      { x := 0, y := 50, scale := 9/10, rotation := 0, opacity := 1 } := rfl

/-! ### Invariants of the scroll-animation state machine -/

/-- Flag invariant of `useScrollAnimation`: completion implies visibility,
and an in-flight tween implies visibility (the tween is created by the very
callback invocation that sets `isVisible`). -/
def ScrollFlagInv (s : ScrollState) : Prop :=
  (s.hasAnimated = true → s.isVisible = true) ∧
    (s.tween.isSome = true → s.isVisible = true)

lemma scrollStep_flagInv (config : GSAPAnimationConfig) (s : ScrollState)
    (e : ScrollEvent) (h : ScrollFlagInv s) : ScrollFlagInv (scrollStep config s e) := by
  obtain ⟨h1, h2⟩ := h
  cases e with
  | mount a => cases a <;> exact ⟨h1, h2⟩
  | intersect b =>
      simp only [scrollStep]
      split
      · exact ⟨fun _ => rfl, fun _ => rfl⟩
      · exact ⟨h1, h2⟩
  | rerender =>
      simp only [scrollStep]
      by_cases hAt : s.attached = true
      · rw [if_pos hAt]
        exact ⟨h1, fun hx => by simp [scrollEffectBody, scrollCleanup] at hx⟩
      · rw [if_neg hAt]
        exact ⟨h1, fun hx => by simp [scrollCleanup] at hx⟩
  | complete =>
      simp only [scrollStep]
      cases htw : s.tween with
      | none => exact ⟨h1, h2⟩
      | some t =>
          have hvis : s.isVisible = true := h2 (by simp [htw])
          dsimp only
          by_cases hA : s.hasAnimated = true
          · rw [if_pos hA]
            exact ⟨fun _ => hvis, fun _ => hvis⟩
          · rw [if_neg hA]
            by_cases hAt : s.attached = true
            · rw [if_pos hAt]
              exact ⟨fun _ => hvis, fun _ => hvis⟩
            · rw [if_neg hAt]
              exact ⟨fun _ => hvis, fun _ => hvis⟩
  | unmount => exact ⟨h1, fun hx => by simp [scrollStep, scrollCleanup] at hx⟩

lemma scrollFoldl_flagInv (config : GSAPAnimationConfig) (es : List ScrollEvent) :
    ∀ s : ScrollState, ScrollFlagInv s →
      ScrollFlagInv (es.foldl (scrollStep config) s) := by
  induction es with
  | nil => intro s h; exact h
  | cons e es ih =>
      intro s h
      exact ih _ (scrollStep_flagInv config s e h)

lemma scrollStep_isVisible_mono (config : GSAPAnimationConfig) (s : ScrollState)
    (e : ScrollEvent) (h : s.isVisible = true) : (scrollStep config s e).isVisible = true := by
  cases e with
  | mount a => cases a <;> exact h
  | intersect b =>
      simp only [scrollStep]
      split
      · rfl
      · exact h
  | rerender =>
      simp only [scrollStep]
      by_cases hAt : s.attached = true
      · rw [if_pos hAt]; exact h
      · rw [if_neg hAt]; exact h
  | complete =>
      simp only [scrollStep]
      cases htw : s.tween with
      | none => exact h
      | some t =>
          dsimp only
          by_cases hA : s.hasAnimated = true
          · rw [if_pos hA]; exact h
          · rw [if_neg hA]
            by_cases hAt : s.attached = true
            · rw [if_pos hAt]; exact h
            · rw [if_neg hAt]; exact h
  | unmount => exact h

lemma scrollStep_hasAnimated_mono (config : GSAPAnimationConfig) (s : ScrollState)
    (e : ScrollEvent) (h : s.hasAnimated = true) :
    (scrollStep config s e).hasAnimated = true := by
  cases e with
  | mount a => cases a <;> exact h
  | intersect b =>
      simp only [scrollStep]
      split
      · exact h
      · exact h
  | rerender =>
      simp only [scrollStep]
      by_cases hAt : s.attached = true
      · rw [if_pos hAt]; exact h
      · rw [if_neg hAt]; exact h
  | complete =>
      simp only [scrollStep]
      cases htw : s.tween with
      | none => exact h
      | some t =>
          dsimp only
          by_cases hA : s.hasAnimated = true
          · rw [if_pos hA]
          · rw [if_neg hA]
            by_cases hAt : s.attached = true
            · rw [if_pos hAt]; rfl
            · rw [if_neg hAt]; rfl
  | unmount => exact h

lemma scrollFoldl_isVisible_mono (config : GSAPAnimationConfig) (es : List ScrollEvent) :
    ∀ s : ScrollState, s.isVisible = true →
      (es.foldl (scrollStep config) s).isVisible = true := by
  induction es with
  | nil => intro s h; exact h
  | cons e es ih => intro s h; exact ih _ (scrollStep_isVisible_mono config s e h)

lemma scrollFoldl_hasAnimated_mono (config : GSAPAnimationConfig) (es : List ScrollEvent) :
    ∀ s : ScrollState, s.hasAnimated = true →
      (es.foldl (scrollStep config) s).hasAnimated = true := by
  induction es with
  | nil => intro s h; exact h
  | cons e es ih => intro s h; exact ih _ (scrollStep_hasAnimated_mono config s e h)

/-- Claim C1 (code bug, evaluation at the failing input).  Under the default
configuration: mount and a first qualifying intersection issue the entrance
tween; the `setIsVisible` update re-renders the host component, and since
`mergedConfig` is a freshly allocated object every render, the `Object.is`
dependency comparison fails and the effect re-runs — its cleanup kills the
in-flight tween, its body resets the hidden pose and re-observes the element
with a callback closure still holding `hasAnimated = false`.  The
still-intersecting element's observer fires again, and this later
intersection event is not ignored: it changes the hook state and issues the
entrance tween a second time, contradicting the claim (and the code comment
`Unobserve after first animation to prevent re-triggering`). -/
theorem scroll_entrance_reissued_after_rerender :
    ((scrollRun {} [.mount true, .intersect true]).tween = some (mkScrollTween {})) ∧
      ((scrollRun {} [.mount true, .intersect true]).isVisible = true) ∧
      ((scrollRun {} [.mount true, .intersect true, .rerender]).tween = none) ∧
      ((scrollRun {}
          [.mount true, .intersect true, .rerender, .intersect true]).tween =
        some (mkScrollTween {})) ∧
      scrollRun {} [.mount true, .intersect true, .rerender, .intersect true] ≠
        scrollRun {} [.mount true, .intersect true, .rerender] := by
  refine ⟨rfl, rfl, rfl, rfl, ?_⟩
  intro h
  have hobs : (false : Bool) = true := congrArg ScrollState.observing h
  exact Bool.noConfusion hobs

/-- Claim C10.  The booleans returned by `useScrollAnimation` are monotone
over the instance's lifetime: extending a run by further events never resets
`isVisible` or `hasAnimated` from `true` to `false`, and `hasAnimated = true`
implies `isVisible = true`. -/
theorem scroll_flags_monotone (config : GSAPAnimationConfig)
    (es es' : List ScrollEvent) :
    ((scrollRun config es).isVisible = true →
        (scrollRun config (es ++ es')).isVisible = true) ∧
      ((scrollRun config es).hasAnimated = true →
        (scrollRun config (es ++ es')).hasAnimated = true) ∧
      ((scrollRun config es).hasAnimated = true →
        (scrollRun config es).isVisible = true) := by
  refine ⟨?_, ?_, ?_⟩
  · intro h
    simpa [scrollRun, List.foldl_append] using
      scrollFoldl_isVisible_mono config es' _ h
  · intro h
    simpa [scrollRun, List.foldl_append] using
      scrollFoldl_hasAnimated_mono config es' _ h
  · intro h
    have : ScrollFlagInv (scrollRun config es) := by
      have h0 : ScrollFlagInv ({} : ScrollState) := by
        constructor <;> intro hx <;> simp at hx
      simpa [scrollRun] using scrollFoldl_flagInv config es _ h0
    exact this.1 h

/-- Witness for C10 at a concrete run: after mount → intersect → complete,
both flags are true and stay true when a further intersection arrives. -/
theorem scroll_flags_monotone_witness :
    ((scrollRun {} [.mount true, .intersect true, .complete]).isVisible = true) ∧
      ((scrollRun {}
          ([.mount true, .intersect true, .complete] ++ [.intersect true])).isVisible
        = true) ∧
      ((scrollRun {}
          ([.mount true, .intersect true, .complete] ++ [.intersect true])).hasAnimated
        = true) ∧
      ((scrollRun {} [.mount true, .intersect true, .complete]).isVisible = true) :=
  ⟨by decide,
    (scroll_flags_monotone {} [.mount true, .intersect true, .complete]
        [.intersect true]).1 (by decide),
    (scroll_flags_monotone {} [.mount true, .intersect true, .complete]
        [.intersect true]).2.1 (by decide),
    (scroll_flags_monotone {} [.mount true, .intersect true, .complete]
        [.intersect true]).2.2 (by decide)⟩

/-- Claim C2 (code bug, evaluation at the failing input).  Under the default
configuration, after the run mount → first qualifying intersection → tween
completion, the completion callback has run (`hasAnimated = true`), yet the
element's settled visual state is the hidden initial pose
(y 50, scale 9/10, opacity 1 — opacity 1 because the default transform
`opacity := 1` overrides the hidden opacity 0 in the spread), not the
configured target state (y 0, scale 1, opacity 1): setting `hasAnimated`
re-runs the effect (it is in the dependency array), whose body
`gsap.set` resets the element to the hidden pose. -/
theorem scroll_visual_reset_after_completion :
    (scrollRun {} [.mount true, .intersect true, .complete]).hasAnimated = true ∧
      applyProps (scrollRun {} [.mount true, .intersect true, .complete]).visual
          (scrollTarget {}) =
        { x := 0, y := 0, scale := 1, rotation := 0, opacity := 1 } ∧
      (scrollRun {} [.mount true, .intersect true, .complete]).visual =
        { x := 0, y := 50, scale := 9/10, rotation := 0, opacity := 1 } ∧
      (scrollRun {} [.mount true, .intersect true, .complete]).visual ≠
        { x := 0, y := 0, scale := 1, rotation := 0, opacity := 1 } := by
  refine ⟨by decide, rfl, rfl, ?_⟩
  intro h
  have h2 : ({ x := 0, y := 50, scale := 9/10, rotation := 0, opacity := 1 } : Visual) =
      { x := 0, y := 0, scale := 1, rotation := 0, opacity := 1 } :=
    (show (scrollRun {} [.mount true, .intersect true, .complete]).visual =
        { x := 0, y := 50, scale := 9/10, rotation := 0, opacity := 1 } from rfl).symm.trans h
  have hy := congrArg Visual.y h2
  norm_num at hy

/-! ## useHoverAnimation (useGSAP.ts lines 773-853)

State machine of one `useHoverAnimation` hook instance.  `handleMouseEnter`
(element attached) sets `isHovered`, kills the tween referenced by
`leaveAnimationRef` if any, and creates the enter tween
`gsap.to element (scale 1.05, y -5, duration 0.3, ease "power2.out",
...enterConfig.transform)`, storing it in `enterAnimationRef`.
`handleMouseLeave` is symmetric with base `(scale 1, y 0)` and
`leaveAnimationRef`.  Killed refs are not nulled; a newly created tween
simply overwrites the ref.  `live` is the set of GSAP-active tweens on the
element, each with a unique allocation id. -/

/-- Kind of a hover tween: created by the enter or by the leave handler. -/
inductive TweenKind where
  | enter
  | leave
deriving DecidableEq, Repr

/-- A live hover tween: its kind, target properties, timing, and an
allocation identity distinguishing tween objects. -/
structure HoverTween where
  kind : TweenKind
  target : TransformProps
  duration : ℚ
  ease : String
  id : ℕ
deriving DecidableEq, Repr

/-- The enter tween created by `handleMouseEnter`: base
`(scale 1.05, y -5, duration 0.3, ease "power2.out")` spread with
`enterConfig.transform` (the raw config — `useHoverAnimation` does not merge
in the defaults). -/
def mkEnterTween (enterConfig : GSAPAnimationConfig) (i : ℕ) : HoverTween :=
  { kind := .enter
    target := overrideProps { y := some (-5), scale := some (21/20) }
      (enterConfig.transform.getD {})
    duration := 3/10
    ease := "power2.out"
    id := i }

/-- The leave tween created by `handleMouseLeave`: base
`(scale 1, y 0, duration 0.3, ease "power2.out")` spread with
`leaveConfig.transform`. -/
def mkLeaveTween (leaveConfig : GSAPAnimationConfig) (i : ℕ) : HoverTween :=
  { kind := .leave
    target := overrideProps { y := some 0, scale := some 1 }
      (leaveConfig.transform.getD {})
    duration := 3/10
    ease := "power2.out"
    id := i }

/-- State of one `useHoverAnimation` instance. -/
structure HoverState where
  attached : Bool := false
  isHovered : Bool := false
  live : List HoverTween := []
  enterRef : Option ℕ := none
  leaveRef : Option ℕ := none
  nextId : ℕ := 0
deriving DecidableEq, Repr

/-- Pointer events delivered to one `useHoverAnimation` instance. -/
inductive HoverEvent where
  | mouseEnter
  | mouseLeave
deriving DecidableEq, Repr

/-- Killing the tween a ref points to: removes it from the live set
(`tween.kill()`); a `null` ref kills nothing. -/
def killRef (live : List HoverTween) : Option ℕ → List HoverTween
  | none => live
  | some i => live.filter (fun t => t.id != i)

/-- One step of the `useHoverAnimation` state machine; with no element
attached both handlers return immediately. -/
def hoverStep (enterConfig leaveConfig : GSAPAnimationConfig) (s : HoverState) :
    HoverEvent → HoverState
  | .mouseEnter =>
      if s.attached then
        { s with
          isHovered := true
          live := mkEnterTween enterConfig s.nextId :: killRef s.live s.leaveRef
          enterRef := some s.nextId
          nextId := s.nextId + 1 }
      else s
  | .mouseLeave =>
      if s.attached then
        { s with
          isHovered := false
          live := mkLeaveTween leaveConfig s.nextId :: killRef s.live s.enterRef
          leaveRef := some s.nextId
          nextId := s.nextId + 1 }
      else s

/-- Run of one `useHoverAnimation` instance over a list of pointer events,
starting with no live tween. -/
def hoverRun (enterConfig leaveConfig : GSAPAnimationConfig) (attached : Bool)
    (es : List HoverEvent) : HoverState :=
  es.foldl (hoverStep enterConfig leaveConfig) { attached := attached }

/-- Unmount cleanup of `useHoverAnimation`: kill the tweens referenced by
`enterAnimationRef` and `leaveAnimationRef`, when present. -/
def hoverCleanup (s : HoverState) : HoverState :=
  { s with live := killRef (killRef s.live s.enterRef) s.leaveRef }

/-- The tween created by a given pointer event. -/
def mkHoverTween (enterConfig leaveConfig : GSAPAnimationConfig) :
    HoverEvent → ℕ → HoverTween
  | .mouseEnter => mkEnterTween enterConfig
  | .mouseLeave => mkLeaveTween leaveConfig

/-- The animation ref written by a given pointer event. -/
def hoverEventRef : HoverEvent → HoverState → Option ℕ
  | .mouseEnter, s => s.enterRef
  | .mouseLeave, s => s.leaveRef

/-- The element is attached, exactly one tween is live, it is the tween the
given pointer event creates, and the event's ref points to it. -/
def HoverMatches (enterConfig leaveConfig : GSAPAnimationConfig)
    (e : HoverEvent) (s : HoverState) : Prop :=
  s.attached = true ∧
    ∃ i, s.live = [mkHoverTween enterConfig leaveConfig e i] ∧
      hoverEventRef e s = some i

lemma hover_first_step (enterConfig leaveConfig : GSAPAnimationConfig)
    (e : HoverEvent) :
    HoverMatches enterConfig leaveConfig e
      (hoverStep enterConfig leaveConfig { attached := true } e) := by
  cases e <;>
    exact ⟨rfl, 0, rfl, rfl⟩

lemma killRef_enter_self (enterConfig : GSAPAnimationConfig) (i : ℕ) :
    killRef [mkEnterTween enterConfig i] (some i) = [] := by
  simp [killRef, mkEnterTween]

lemma killRef_leave_self (leaveConfig : GSAPAnimationConfig) (i : ℕ) :
    killRef [mkLeaveTween leaveConfig i] (some i) = [] := by
  simp [killRef, mkLeaveTween]

lemma hover_step_matches (enterConfig leaveConfig : GSAPAnimationConfig)
    (e₀ e : HoverEvent) (hne : e₀ ≠ e) (s : HoverState)
    (h : HoverMatches enterConfig leaveConfig e₀ s) :
    HoverMatches enterConfig leaveConfig e
      (hoverStep enterConfig leaveConfig s e) := by
  obtain ⟨hatt, i, hlive, href⟩ := h
  cases e₀ <;> cases e <;> try exact absurd rfl hne
  · -- last event enter, new event leave: the live enter tween is the one
    -- `enterAnimationRef` points to, and the leave handler kills it
    have henter : s.enterRef = some i := href
    simp only [mkHoverTween] at hlive
    simp only [hoverStep]
    rw [if_pos hatt]
    exact ⟨hatt, s.nextId, by rw [hlive, henter, killRef_enter_self]; rfl, rfl⟩
  · -- last event leave, new event enter: symmetric
    have hleave : s.leaveRef = some i := href
    simp only [mkHoverTween] at hlive
    simp only [hoverStep]
    rw [if_pos hatt]
    exact ⟨hatt, s.nextId, by rw [hlive, hleave, killRef_leave_self]; rfl, rfl⟩

lemma getLastD_concat_eq (l : List α) (a d : α) : (l ++ [a]).getLastD d = a := by
  induction l generalizing d with
  | nil => rfl
  | cons b l ih =>
      rw [List.cons_append, List.getLastD_cons]
      exact ih b

lemma hover_chain_matches (enterConfig leaveConfig : GSAPAnimationConfig) :
    ∀ (es : List HoverEvent) (e₀ : HoverEvent) (s : HoverState),
      HoverMatches enterConfig leaveConfig e₀ s →
      List.Chain' Ne (e₀ :: es) →
      HoverMatches enterConfig leaveConfig (es.getLastD e₀)
        (es.foldl (hoverStep enterConfig leaveConfig) s) := by
  intro es
  induction es with
  | nil => intro e₀ s h _; exact h
  | cons e es ih =>
      intro e₀ s h hch
      rw [List.chain'_cons] at hch
      rw [List.getLastD_cons]
      exact ih e (hoverStep enterConfig leaveConfig s e)
        (hover_step_matches enterConfig leaveConfig e₀ e hch.1 s h) hch.2

/-- Claim C4.  For any alternating pointer-event sequence (mouseenter and
mouseleave alternate on a DOM element) delivered to an attached
`useHoverAnimation` element, after the last event exactly one tween is
active on the element, it is the tween created by that last event
(enter tween after mouseenter, leave tween after mouseleave), and the
corresponding animation ref points to it: each handler kills the opposite
in-flight tween before starting its own (last-write-wins, not queued). -/
theorem hover_last_write_wins (enterConfig leaveConfig : GSAPAnimationConfig)
    (es : List HoverEvent) (e : HoverEvent)
    (hch : List.Chain' Ne (es ++ [e])) :
    ∃ i,
      (hoverRun enterConfig leaveConfig true (es ++ [e])).live =
          [mkHoverTween enterConfig leaveConfig e i] ∧
        hoverEventRef e (hoverRun enterConfig leaveConfig true (es ++ [e])) =
          some i := by
  cases es with
  | nil =>
      obtain ⟨hatt, i, h1, h2⟩ := hover_first_step enterConfig leaveConfig e
      exact ⟨i, h1, h2⟩
  | cons e₁ es =>
      have h0 := hover_first_step enterConfig leaveConfig e₁
      have hch' : List.Chain' Ne (e₁ :: (es ++ [e])) := by simpa using hch
      have hm := hover_chain_matches enterConfig leaveConfig (es ++ [e]) e₁
        (hoverStep enterConfig leaveConfig { attached := true } e₁) h0 hch'
      rw [getLastD_concat_eq] at hm
      obtain ⟨hatt, i, h1, h2⟩ := hm
      exact ⟨i, by simpa [hoverRun] using h1, by simpa [hoverRun] using h2⟩

/-- Witness for C4: the rapid sequence enter → leave → enter leaves exactly
one live tween, the second enter tween. -/
theorem hover_last_write_wins_witness :
    List.Chain' Ne
        ([HoverEvent.mouseEnter, HoverEvent.mouseLeave] ++ [HoverEvent.mouseEnter]) ∧
      ∃ i,
        (hoverRun {} {} true
              ([HoverEvent.mouseEnter, HoverEvent.mouseLeave] ++
                [HoverEvent.mouseEnter])).live =
            [mkHoverTween {} {} .mouseEnter i] ∧
          hoverEventRef .mouseEnter
              (hoverRun {} {} true
                ([HoverEvent.mouseEnter, HoverEvent.mouseLeave] ++
                  [HoverEvent.mouseEnter])) =
            some i :=
  ⟨by simp [List.chain'_cons],
    hover_last_write_wins {} {} [.mouseEnter, .mouseLeave] .mouseEnter
      (by simp [List.chain'_cons])⟩

/-- Claim C3 (code bug, evaluation).  None of the animation hooks reads a
reduced-motion signal: no step function of this development takes such an
input, because the source never queries the preference (the only
`prefers-reduced-motion` handling in the repository is a global stylesheet
rule, which caps CSS transition and animation durations and does not affect
GSAP's inline-style tweens).  Hence for every value `rm` of the host's
preference, a pointer-enter still creates the timed 0.3 s hover tween and a
qualifying intersection still creates the timed 0.8 s entrance tween
(default config) — not a zero-duration or skipped transition. -/
theorem reduced_motion_not_consulted :
    ∀ rm : Bool,
      (mkEnterTween {} 0).duration = 3/10 ∧
        (mkScrollTween {}).duration = some (4/5) ∧
        ¬((3:ℚ)/10 = 0) ∧ ¬((4:ℚ)/5 = 0) := by
  intro rm
  exact ⟨rfl, rfl, by norm_num, by norm_num⟩

/-! ## useStaggerAnimation (useGSAP.ts lines 687-763)

The effect body reads the container's current children
(`gsap.utils.toArray container.children`); with zero children it returns at
once.  Otherwise it sets all children to the hidden pose
`(opacity 0, y 30, scale 0.9, ...transform)`, creates a timeline and plays a
single batched tween toward `(opacity 1, y 0, scale 1, ...transform)` with
`stagger` seconds between the children's start times (merged duration and
ease are passed; the merged delay is not).  There is no intersection
observer in this hook: nothing is gated on the container entering the
viewport.  Children are identified by opaque numeric handles. -/

/-- Hidden initial pose applied to every child at effect time. -/
def staggerHidden (config : GSAPAnimationConfig) : TransformProps :=
  overrideProps
    { y := some 30, scale := some (9/10), opacity := some 0 }
    ((mergeConfig config).transform.getD {})

/-- Target pose of the batched stagger tween. -/
def staggerTargetProps (config : GSAPAnimationConfig) : TransformProps :=
  overrideProps
    { y := some 0, scale := some 1, opacity := some 1 }
    ((mergeConfig config).transform.getD {})

/-- GSAP's stagger scheduling: child `i` of the batched tween starts at
`base + i * d`, where `d` is the per-item stagger increment. -/
def staggerSchedule (base d : ℚ) : List ℕ → List (ℕ × ℚ)
  | [] => []
  | c :: cs => (c, base) :: staggerSchedule (base + d) d cs

/-- State of one `useStaggerAnimation` instance.  `children` are the child
handles read at effect time, `childVisuals` their visual states, `started`
whether the timeline has been created (it plays immediately), `schedule`
the per-child start times of the batched tween. -/
structure StaggerState where
  attached : Bool := false
  children : List ℕ := []
  childVisuals : List Visual := []
  started : Bool := false
  schedule : List (ℕ × ℚ) := []
  isReady : Bool := false
deriving DecidableEq, Repr

/-- Events delivered to one `useStaggerAnimation` instance.  The
`enterViewport` event models the container entering the viewport; the
source registers no observer, so the step function ignores it. -/
inductive StaggerEvent where
  | mount (attached : Bool) (children : List ℕ)
  | enterViewport
  | complete
  | unmount
deriving DecidableEq, Repr

/-- One step of the `useStaggerAnimation` state machine. -/
def staggerStep (config : GSAPAnimationConfig) (d : ℚ) (s : StaggerState) :
    StaggerEvent → StaggerState
  | .mount a kids =>
      if a then
        if kids = [] then { s with attached := true }
        else
          { s with
            attached := true
            children := kids
            childVisuals := kids.map (fun _ => applyProps {} (staggerHidden config))
            started := true
            schedule := staggerSchedule 0 d kids }
      else s
  | .enterViewport => s
  | .complete => if s.started then { s with isReady := true } else s
  | .unmount => { s with started := false, schedule := [] }

/-- Run of one `useStaggerAnimation` instance over a list of events. -/
def staggerRun (config : GSAPAnimationConfig) (d : ℚ) (es : List StaggerEvent) :
    StaggerState :=
  es.foldl (staggerStep config d) {}

/-- Whether a stagger event is the viewport-entry event. -/
def StaggerEvent.isEnterView : StaggerEvent → Bool
  | .enterViewport => true
  | _ => false

/-- Claim C5, counterexample.  The claim says the staggered entrance begins
only once the container enters the viewport; but in the run consisting of
the mount-time effect alone — containing no viewport-entry event — the
batched animation has already started. -/
theorem stagger_starts_without_viewport_entry :
    ([StaggerEvent.mount true [0, 1, 2]].all (fun e => !e.isEnterView) = true) ∧
      (staggerRun {} (1/10) [.mount true [0, 1, 2]]).started = true := by
  exact ⟨by decide, by decide⟩

lemma staggerSchedule_length (base d : ℚ) (kids : List ℕ) :
    (staggerSchedule base d kids).length = kids.length := by
  induction kids generalizing base with
  | nil => rfl
  | cons c cs ih => simp [staggerSchedule, ih]

lemma staggerSchedule_getElem (d : ℚ) (kids : List ℕ) :
    ∀ (base : ℚ) (i : ℕ) (h : i < kids.length),
      (staggerSchedule base d kids)[i]? = some (kids[i], base + i * d) := by
  induction kids with
  | nil => intro base i h; exact absurd h (by simp)
  | cons c cs ih =>
      intro base i h
      cases i with
      | zero => simp [staggerSchedule]
      | succ j =>
          have hj : j < cs.length := by
            simpa [Nat.succ_lt_succ_iff] using h
          have := ih (base + d) j hj
          simp only [staggerSchedule, List.getElem?_cons_succ, this,
            List.getElem_cons_succ]
          congr 1
          push_cast
          ring

/-- Claim C5, amended.  The staggered entrance is not gated on viewport
entry: it begins immediately when the effect runs with an attached container
that has children.  At that moment the current children are read, all of
them are set to the hidden initial pose, and the single batched tween is
issued with per-child start times `i * d`; a viewport-entry event is ignored
by the hook (it registers no observer). -/
theorem stagger_begins_at_mount (config : GSAPAnimationConfig) (d : ℚ)
    (kids : List ℕ) (hk : kids ≠ []) :
    (staggerRun config d [.mount true kids]).started = true ∧
      (staggerRun config d [.mount true kids]).childVisuals =
        kids.map (fun _ => applyProps {} (staggerHidden config)) ∧
      (staggerRun config d [.mount true kids]).schedule =
        staggerSchedule 0 d kids ∧
      (∀ s : StaggerState, staggerStep config d s .enterViewport = s) := by
  have hrun : staggerRun config d [.mount true kids] =
      { attached := true
        children := kids
        childVisuals := kids.map (fun _ => applyProps {} (staggerHidden config))
        started := true
        schedule := staggerSchedule 0 d kids
        isReady := false } := by
    simp only [staggerRun, List.foldl_cons, List.foldl_nil, staggerStep]
    rw [if_pos trivial, if_neg hk]
  refine ⟨?_, ?_, ?_, fun s => rfl⟩ <;> rw [hrun]

/-- Witness for the amended C5 at a concrete container with three children. -/
theorem stagger_begins_at_mount_witness :
    ([0, 1, 2] ≠ ([] : List ℕ)) ∧
      (staggerRun {} (1/10) [.mount true [0, 1, 2]]).childVisuals =
        [0, 1, 2].map (fun _ => applyProps {} (staggerHidden {})) :=
  ⟨by decide, (stagger_begins_at_mount {} (1/10) [0, 1, 2] (by decide)).2.1⟩

/-- Claim C6.  For a stagger run over children `kids` with increment `d`,
the batched tween's start time for child `i` is `i * d` past the base start
(the timeline plays from 0; the code passes no extra delay), for every
`i < kids.length`. -/
theorem stagger_start_times (config : GSAPAnimationConfig) (d : ℚ)
    (kids : List ℕ) (i : ℕ) (h : i < kids.length) :
    (staggerRun config d [.mount true kids]).schedule[i]? =
      some (kids[i], 0 + i * d) := by
  have hk : kids ≠ [] := by
    intro hnil
    rw [hnil] at h
    exact absurd h (by simp)
  have hrun : (staggerRun config d [.mount true kids]).schedule =
      staggerSchedule 0 d kids := by
    simp only [staggerRun, List.foldl_cons, List.foldl_nil, staggerStep]
    rw [if_pos trivial, if_neg hk]
  rw [hrun]
  exact staggerSchedule_getElem d kids 0 i h

/-- Witness for C6: in a three-child run with increment 1/10 the third child
starts at 2 * (1/10). -/
theorem stagger_start_times_witness :
    (2 < [5, 6, 7].length) ∧
      (staggerRun {} (1/10) [.mount true [5, 6, 7]]).schedule[2]? =
        some (7, 0 + (2 : ℕ) * (1/10 : ℚ)) :=
  ⟨by decide, stagger_start_times {} (1/10) [5, 6, 7] 2 (by decide)⟩

/-! ## useParallax (useGSAP.ts lines 629-677)

The effect creates one ScrollTrigger spanning the element's own viewport
traversal (start "top bottom", end "bottom top", scrub).  Its `onUpdate`
callback reads `self.progress` (0 at first viewport contact, 1 at last),
computes `yPercent = config.speed * progress * 100 || 0` (`|| 0` is a
NaN guard, identity on rationals) and issues
`gsap.set element (yPercent, ...config.properties, force3D)` — note the
spread places the static `config.properties` after the computed `yPercent`,
so a static `yPercent` in `properties` overrides the computed offset. -/

/-- The `properties` object of the TS `ParallaxConfig` (fields `yPercent`,
`xPercent`, `rotation`, `scale`, `opacity`, all optional). -/
structure ParallaxProps where
  yPercent : Option ℚ := none
  xPercent : Option ℚ := none
  rotation : Option ℚ := none
  scale : Option ℚ := none
  opacity : Option ℚ := none
deriving DecidableEq, Repr

/-- The TS `ParallaxConfig`: speed multiplier, static properties, optional
hardware-acceleration hint (`performance.use3d`); the `selector` string is
presentational and omitted. -/
structure ParallaxConfig where
  speed : ℚ
  properties : ParallaxProps := {}
  use3d : Option Bool := none
deriving DecidableEq, Repr

/-- Spread of one parallax-property object over another. -/
def overridePProps (base ov : ParallaxProps) : ParallaxProps :=
  { yPercent := optOr base.yPercent ov.yPercent
    xPercent := optOr base.xPercent ov.xPercent
    rotation := optOr base.rotation ov.rotation
    scale := optOr base.scale ov.scale
    opacity := optOr base.opacity ov.opacity }

/-- Scroll-linked visual state of the parallax element. -/
structure PVisual where
  yPercent : ℚ := 0
  xPercent : ℚ := 0
  rotation : ℚ := 0
  scale : ℚ := 1
  opacity : ℚ := 1
deriving DecidableEq, Repr

/-- Effect of `gsap.set element props` on the parallax visual state. -/
def applyPProps (v : PVisual) (p : ParallaxProps) : PVisual :=
  { yPercent := p.yPercent.getD v.yPercent
    xPercent := p.xPercent.getD v.xPercent
    rotation := p.rotation.getD v.rotation
    scale := p.scale.getD v.scale
    opacity := p.opacity.getD v.opacity }

/-- The `onUpdate` body of `useParallax`'s ScrollTrigger at a given scroll
progress: compute the offset `speed * progress * 100` and apply it together
with the static property overrides. -/
def parallaxUpdate (config : ParallaxConfig) (progress : ℚ) (v : PVisual) :
    PVisual :=
  applyPProps v
    (overridePProps { yPercent := some (config.speed * progress * 100) }
      config.properties)

/-- State of one `useParallax` instance: `triggerActive` is whether the
ScrollTrigger (and its scroll/resize subscription) exists. -/
structure ParallaxState where
  attached : Bool := false
  triggerActive : Bool := false
  visual : PVisual := {}
deriving DecidableEq, Repr

/-- Events delivered to one `useParallax` instance. -/
inductive ParallaxEvent where
  | mount (attached : Bool)
  | update (progress : ℚ)
  | unmount
deriving DecidableEq, Repr

/-- One step of the `useParallax` state machine: the effect returns at once
without an element; `onUpdate` fires only while the trigger exists; unmount
kills the trigger. -/
def parallaxStep (config : ParallaxConfig) (s : ParallaxState) :
    ParallaxEvent → ParallaxState
  | .mount a =>
      if a then { s with attached := true, triggerActive := true } else s
  | .update p =>
      if s.triggerActive then { s with visual := parallaxUpdate config p s.visual }
      else s
  | .unmount => { s with triggerActive := false }

/-- Run of one `useParallax` instance over a list of events. -/
def parallaxRun (config : ParallaxConfig) (es : List ParallaxEvent) :
    ParallaxState :=
  es.foldl (parallaxStep config) {}

/-- Claim C7, counterexample.  With the configuration the repository's own
call sites use (`speed := -0.5`, `properties.yPercent := -50`), at progress
1/2 the offset written to the element is the static override −50, not
`speed * progress * 100 = -25`: the spread `(yPercent, ...properties)`
places the static properties after the computed offset, so a static
`yPercent` wins on every update. -/
theorem parallax_offset_overridden_by_static_property :
    (parallaxUpdate
        { speed := -(1/2), properties := { yPercent := some (-50) } }
        (1/2) {}).yPercent = -50 ∧
      (-(1/2) : ℚ) * (1/2) * 100 = -25 ∧
      ¬((-50 : ℚ) = -25) := by
  exact ⟨rfl, by norm_num, by norm_num⟩

lemma optGetD_getD (o : Option α) (x : α) : o.getD (o.getD x) = o.getD x := by
  cases o <;> rfl

lemma optOr_none_base (ov : Option α) : optOr none ov = ov := by
  cases ov <;> rfl

/-- Claim C7, amended.  When the static properties do not themselves carry a
`yPercent` override, every update writes offset `speed * progress * 100` to
the element; the offset is a pure function of the current progress and the
configured speed (two updates at the same progress from different prior
visual states write the same offset), and an update is idempotent — there is
no hidden state carried across updates. -/
theorem parallax_offset_formula (config : ParallaxConfig) (p : ℚ) (v : PVisual)
    (hstatic : config.properties.yPercent = none) (h0 : 0 ≤ p) (h1 : p ≤ 1) :
    (parallaxUpdate config p v).yPercent = config.speed * p * 100 ∧
      (∀ w : PVisual,
        (parallaxUpdate config p w).yPercent = (parallaxUpdate config p v).yPercent) ∧
      parallaxUpdate config p (parallaxUpdate config p v) =
        parallaxUpdate config p v := by
  refine ⟨?_, ?_, ?_⟩
  · simp [parallaxUpdate, applyPProps, overridePProps, hstatic, optOr]
  · intro w
    simp [parallaxUpdate, applyPProps, overridePProps, hstatic, optOr]
  · simp [parallaxUpdate, applyPProps, overridePProps, hstatic, optOr_none_base,
      optOr, optGetD_getD]

/-- Witness for the amended C7 at speed −1/2, progress 1/2, no static
override: the offset written is −25. -/
theorem parallax_offset_formula_witness :
    (({ speed := -(1/2) } : ParallaxConfig).properties.yPercent = none) ∧
      ((0 : ℚ) ≤ 1/2) ∧ ((1/2 : ℚ) ≤ 1) ∧
      (parallaxUpdate { speed := -(1/2) } (1/2) {}).yPercent =
        ({ speed := -(1/2) } : ParallaxConfig).speed * (1/2) * 100 :=
  ⟨rfl, by norm_num, by norm_num,
    (parallax_offset_formula { speed := -(1/2) } (1/2) {} rfl (by norm_num)
      (by norm_num)).1⟩

/-! ## useGSAPAnimation (useGSAP.ts lines 412-518)

The basic animation hook: its effect returns at once without an element;
otherwise it sets the hidden pose `(opacity 0, y 30, ...transform)` and
immediately issues the tween toward `(opacity 1, y 0, ...transform)` with
the merged duration / ease / delay.  `onComplete` sets `isReady` (not in the
dependency array, so no effect re-run); cleanup kills the tween. -/

/-- Hidden initial pose of `useGSAPAnimation`. -/
def gsapHidden (config : GSAPAnimationConfig) : TransformProps :=
  overrideProps
    { y := some 30, opacity := some 0 }
    ((mergeConfig config).transform.getD {})

/-- Tween created by the `useGSAPAnimation` effect. -/
def mkGsapTween (config : GSAPAnimationConfig) : GTween :=
  { target := overrideProps { y := some 0, opacity := some 1 }
      ((mergeConfig config).transform.getD {})
    duration := (mergeConfig config).duration
    ease := (mergeConfig config).ease
    delay := (mergeConfig config).delay }

/-- State of one `useGSAPAnimation` instance. -/
structure GAnimState where
  attached : Bool := false
  tween : Option GTween := none
  isReady : Bool := false
  visual : Visual := {}
deriving DecidableEq, Repr

/-- Events delivered to one `useGSAPAnimation` instance. -/
inductive GAnimEvent where
  | mount (attached : Bool)
  | complete
  | unmount
deriving DecidableEq, Repr

/-- One step of the `useGSAPAnimation` state machine. -/
def gsapAnimStep (config : GSAPAnimationConfig) (s : GAnimState) :
    GAnimEvent → GAnimState
  | .mount a =>
      if a then
        { s with
          attached := true
          visual := applyProps s.visual (gsapHidden config)
          tween := some (mkGsapTween config) }
      else s
  | .complete =>
      match s.tween with
      | some t => { s with visual := applyProps s.visual t.target, isReady := true }
      | none => s
  | .unmount => { s with tween := none }

/-- Run of one `useGSAPAnimation` instance over a list of events. -/
def gsapAnimRun (config : GSAPAnimationConfig) (es : List GAnimEvent) :
    GAnimState :=
  es.foldl (gsapAnimStep config) {}

lemma hoverRun_detached (enterConfig leaveConfig : GSAPAnimationConfig) :
    ∀ (es : List HoverEvent) (s : HoverState), s.attached = false →
      es.foldl (hoverStep enterConfig leaveConfig) s = s := by
  intro es
  induction es with
  | nil => intro s _; rfl
  | cons e es ih =>
      intro s hs
      have hstep : hoverStep enterConfig leaveConfig s e = s := by
        cases e <;> simp [hoverStep, hs]
      rw [List.foldl_cons, hstep]
      exact ih s hs

/-- Claim C8.  Invoking any controller while its target element reference is
absent is a no-op: all step functions are total (nothing throws), and the
mount-time effects of `useGSAPAnimation`, `useScrollAnimation`,
`useParallax` and `useStaggerAnimation` with no attached element leave their
state at the initial state — no tween, no observer, no ScrollTrigger, no
timeline is created — and the pointer handlers of `useHoverAnimation` on a
detached element leave its state unchanged for every event sequence. -/
theorem absent_element_is_noop (config enterConfig leaveConfig : GSAPAnimationConfig)
    (pconfig : ParallaxConfig) (d : ℚ) (kids : List ℕ) (es : List HoverEvent) :
    gsapAnimRun config [.mount false] = ({} : GAnimState) ∧
      scrollRun config [.mount false] = ({} : ScrollState) ∧
      parallaxRun pconfig [.mount false] = ({} : ParallaxState) ∧
      staggerRun config d [.mount false kids] = ({} : StaggerState) ∧
      hoverRun enterConfig leaveConfig false es = { attached := false } := by
  refine ⟨rfl, rfl, rfl, rfl, ?_⟩
  exact hoverRun_detached enterConfig leaveConfig es { attached := false } rfl

/-! ## Unmount teardown (claim C9)

Residual browser resources attributable to one hook instance: the
intersection observer and in-flight tween of `useScrollAnimation`, the
tween of `useGSAPAnimation`, the ScrollTrigger (scroll/resize subscription)
of `useParallax`, the timeline of `useStaggerAnimation`, and the live tweens
of `useHoverAnimation`. -/

/-- Residual resources of a `useScrollAnimation` instance. -/
def ScrollState.resources (s : ScrollState) : ℕ :=
  (if s.observing then 1 else 0) + (if s.tween.isSome then 1 else 0)

/-- Residual resources of a `useGSAPAnimation` instance. -/
def GAnimState.resources (s : GAnimState) : ℕ :=
  if s.tween.isSome then 1 else 0

/-- Residual resources of a `useParallax` instance. -/
def ParallaxState.resources (s : ParallaxState) : ℕ :=
  if s.triggerActive then 1 else 0

/-- Residual resources of a `useStaggerAnimation` instance. -/
def StaggerState.resources (s : StaggerState) : ℕ :=
  if s.started then 1 else 0

/-- Residual resources of a `useHoverAnimation` instance: its live tweens. -/
def HoverState.resources (s : HoverState) : ℕ :=
  s.live.length

lemma hoverCleanup_of_matches (enterConfig leaveConfig : GSAPAnimationConfig)
    (e : HoverEvent) (s : HoverState)
    (h : HoverMatches enterConfig leaveConfig e s) :
    (hoverCleanup s).live = [] := by
  obtain ⟨hatt, i, hlive, href⟩ := h
  cases e with
  | mouseEnter =>
      have henter : s.enterRef = some i := href
      simp only [mkHoverTween] at hlive
      simp only [hoverCleanup, hlive, henter, killRef_enter_self]
      cases s.leaveRef <;> rfl
  | mouseLeave =>
      have hleave : s.leaveRef = some i := href
      simp only [mkHoverTween] at hlive
      simp only [hoverCleanup, hlive, hleave]
      cases hE : s.enterRef with
      | none => exact killRef_leave_self leaveConfig i
      | some j =>
          by_cases hj : (mkLeaveTween leaveConfig i).id = j
          · simp [killRef, hj]
          · have : killRef [mkLeaveTween leaveConfig i] (some j) =
                [mkLeaveTween leaveConfig i] := by
              simp [killRef, List.filter_cons, hj]
            rw [this, killRef_leave_self]

lemma hover_alternating_cleanup (enterConfig leaveConfig : GSAPAnimationConfig)
    (es : List HoverEvent) (hch : List.Chain' Ne es) :
    (hoverCleanup (hoverRun enterConfig leaveConfig true es)).live = [] := by
  rcases List.eq_nil_or_concat es with rfl | ⟨es', e, rfl⟩
  · rfl
  · rw [List.concat_eq_append] at hch ⊢
    cases es' with
    | nil =>
        exact hoverCleanup_of_matches enterConfig leaveConfig e _
          (hover_first_step enterConfig leaveConfig e)
    | cons e₁ es'' =>
        have h0 := hover_first_step enterConfig leaveConfig e₁
        have hch' : List.Chain' Ne (e₁ :: (es'' ++ [e])) := by simpa using hch
        have hm := hover_chain_matches enterConfig leaveConfig (es'' ++ [e]) e₁
          (hoverStep enterConfig leaveConfig { attached := true } e₁) h0 hch'
        rw [getLastD_concat_eq] at hm
        have : hoverRun enterConfig leaveConfig true ((e₁ :: es'') ++ [e]) =
            (es'' ++ [e]).foldl (hoverStep enterConfig leaveConfig)
              (hoverStep enterConfig leaveConfig { attached := true } e₁) := by
          simp [hoverRun]
        rw [this]
        exact hoverCleanup_of_matches enterConfig leaveConfig e _ hm

/-- Claim C9.  Unmounting any controller instance while an observation,
transition or listener is active releases everything: the unmount cleanup of
`useScrollAnimation` disconnects the observer and kills the tween, that of
`useGSAPAnimation` kills the tween, that of `useParallax` kills the
ScrollTrigger (its scroll/resize subscription), that of
`useStaggerAnimation` kills the timeline — each from an arbitrary reachable
state — and that of `useHoverAnimation` kills the tweens referenced by both
animation refs, which after any alternating pointer-event sequence are all
the live tweens.  Zero residual resources remain in every case. -/
theorem unmount_releases_all_resources (config enterConfig leaveConfig : GSAPAnimationConfig)
    (pconfig : ParallaxConfig) (d : ℚ)
    (esS : List ScrollEvent) (esG : List GAnimEvent) (esP : List ParallaxEvent)
    (esT : List StaggerEvent) (esH : List HoverEvent)
    (hch : List.Chain' Ne esH) :
    (scrollStep config (scrollRun config esS) .unmount).resources = 0 ∧
      (gsapAnimStep config (gsapAnimRun config esG) .unmount).resources = 0 ∧
      (parallaxStep pconfig (parallaxRun pconfig esP) .unmount).resources = 0 ∧
      (staggerStep config d (staggerRun config d esT) .unmount).resources = 0 ∧
      (hoverCleanup (hoverRun enterConfig leaveConfig true esH)).resources = 0 := by
  refine ⟨rfl, rfl, rfl, rfl, ?_⟩
  simp [HoverState.resources,
    hover_alternating_cleanup enterConfig leaveConfig esH hch]

/-- Witness for C9 at concrete runs in which every resource is live just
before unmount. -/
theorem unmount_releases_all_resources_witness :
    List.Chain' Ne [HoverEvent.mouseEnter, HoverEvent.mouseLeave] ∧
      (scrollStep {} (scrollRun {} [.mount true, .intersect true]) .unmount).resources
          = 0 ∧
      (hoverCleanup (hoverRun {} {} true
          [HoverEvent.mouseEnter, HoverEvent.mouseLeave])).resources = 0 :=
  ⟨by simp [List.chain'_cons],
    (unmount_releases_all_resources {} {} {} { speed := 1 } (1/10)
        [.mount true, .intersect true] [] [] []
        [HoverEvent.mouseEnter, HoverEvent.mouseLeave]
        (by simp [List.chain'_cons])).1,
    (unmount_releases_all_resources {} {} {} { speed := 1 } (1/10)
        [.mount true, .intersect true] [] [] []
        [HoverEvent.mouseEnter, HoverEvent.mouseLeave]
        (by simp [List.chain'_cons])).2.2.2.2⟩
